import Mathlib

/-!
# Verification of the scifi-3-D-room repository's orbital/update model

Shallow embedding of the two scenes of the repository:

* `Solar1` — the simple solar-system variant (`src/unnamed/part_000`, first
  document, lines 1–269): `planetParams`, the `planetGroups` construction with
  staggered starting angles, and the per-tick update of `animate`.
* `Solar2` — the detailed solar-system variant (`src/unnamed/part_000`, second
  document, lines 270–691): `planetsData`, per-tick axial-tilt assignment,
  orbit-group increments and the Earth/moon hierarchy.
* `RoomScene` — `src/script.js`: the resize handler, the side-monitor code
  scroll and the frame-loop callback structure.
* `CamCtl` — the orbit camera controller's distance handling (spec §4.3).
* `TexLoad` — the texture loader with its error callback.

JavaScript numbers are idealised as exact rationals; the claims under study are
structural (which field is assigned, incremented, clamped, in which order), not
about floating-point rounding.  Every angle value arising in the program is a
rational number plus a rational multiple of `π` (rational per-frame speeds are
accumulated; `Math.PI` enters only through the staggered initial angles
`idx * π/4` and the axial tilt `axialTilt * π/180`), so angles are embedded
exactly as such pairs, keeping all program state executable.
-/

/-- Exact representation of an angle value `q + c * π` (`q`, `c` rational).
All angle arithmetic performed by the program stays inside this set. -/
structure AngVal where
  q : ℚ
  c : ℚ
deriving DecidableEq, Repr, Inhabited

instance : Add AngVal := ⟨fun a b => ⟨a.q + b.q, a.c + b.c⟩⟩

/-- The real number an `AngVal` stands for: `a.q + a.c * π`. -/
def AngVal.denotes (a : AngVal) (r : ℝ) : Prop := r = (a.q : ℝ) + (a.c : ℝ) * Real.pi

/-- Congruence of two real angles modulo `2π`. -/
def congMod2Pi (a b : ℝ) : Prop := ∃ n : ℤ, a - b = 2 * Real.pi * n

namespace Solar1

/-- One entry of the `planetParams` array (`src/unnamed/part_000` lines 70–153):
name, sphere size, orbital distance, fallback color, per-frame orbital speed and
per-frame self-rotation speed. -/
structure PlanetParams where
  name : String
  size : ℚ
  distance : ℚ
  color : ℕ
  orbitSpeed : ℚ
  rotationSpeed : ℚ
deriving DecidableEq, Repr, Inhabited

/-- The nine entries of `planetParams` (decimal literals written as exact
fractions: `0.008 = 8/1000`, …). -/
def planetParams : List PlanetParams :=
  [⟨"Mercury", 2, 40, 0xaaaaaa, 8/1000, 18/1000⟩,
   ⟨"Venus", 3, 65, 0xffcccc, 7/1000, 8/1000⟩,
   ⟨"Earth", 7/2, 100, 0x3399ff, 6/1000, 16/1000⟩,
   ⟨"Mars", 3, 125, 0xff5500, 5/1000, 14/1000⟩,
   ⟨"Jupiter", 10, 170, 0xe3b679, 25/10000, 3/100⟩,
   ⟨"Saturn", 8, 210, 0xf6e289, 18/10000, 25/1000⟩,
   ⟨"Uranus", 6, 255, 0x00eaff, 9/10000, 19/1000⟩,
   ⟨"Neptune", 6, 295, 0x1a06aa, 7/10000, 17/1000⟩,
   ⟨"Pluto", 1, 335, 0xc8d1ff, 5/10000, 12/1000⟩]

/-- Per-planet animation state as pushed onto `planetGroups` (lines 215–220):
the mesh and its orbit group (of which we keep the y-rotations) and the
accumulated orbital angle `angle`. -/
structure PlanetGroup where
  params : PlanetParams
  orbitGroupRotY : AngVal
  meshRotY : ℚ
  angle : AngVal
deriving DecidableEq, Repr, Inhabited

/-- The `planetGroups` array as built by `planetParams.forEach((p, idx) => …)`
(lines 172–221): mesh and orbit-group rotations start at three.js's default 0,
and `angle: idx * Math.PI / 4` staggers the starting locations (line 219). -/
def planetGroups : List PlanetGroup :=
  planetParams.enum.map fun ip =>
    { params := ip.2, orbitGroupRotY := ⟨0, 0⟩, meshRotY := 0,
      angle := ⟨0, (ip.1 : ℚ) / 4⟩ }

/-- Line 253, `pg.orbitGroup.rotation.y = pg.angle`: the orbit-group rotation
is assigned (set, not incremented) to the accumulated angle. -/
def applyGroupRotAssign (pg : PlanetGroup) : PlanetGroup :=
  { pg with orbitGroupRotY := pg.angle }

/-- One `animate` tick for one entry of `planetGroups` (lines 251–255):
`pg.angle += pg.params.orbitSpeed`, then the group-rotation assignment
(line 253), then `pg.mesh.rotation.y += pg.params.rotationSpeed * 0.03`. -/
def updatePG (pg : PlanetGroup) : PlanetGroup :=
  let pg1 : PlanetGroup := { pg with angle := pg.angle + ⟨pg.params.orbitSpeed, 0⟩ }
  let pg2 : PlanetGroup := applyGroupRotAssign pg1
  { pg2 with meshRotY := pg2.meshRotY + pg.params.rotationSpeed * (3/100) }

/-- The state pushed for Venus (index 1): starting angle `1 * π/4`. -/
def venusInit : PlanetGroup :=
  { params := ⟨"Venus", 3, 65, 0xffcccc, 7/1000, 8/1000⟩,
    orbitGroupRotY := ⟨0, 0⟩, meshRotY := 0, angle := ⟨0, 1/4⟩ }

/-- The state pushed for Mercury (index 0): starting angle `0`. -/
def mercuryInit : PlanetGroup :=
  { params := ⟨"Mercury", 2, 40, 0xaaaaaa, 8/1000, 18/1000⟩,
    orbitGroupRotY := ⟨0, 0⟩, meshRotY := 0, angle := ⟨0, 0⟩ }

end Solar1

namespace Solar2

/-- One entry of the `planetsData` array (`src/unnamed/part_000` lines 375–464):
name, size, distance, orbital period (Earth years), rotation period (Earth
days; negative = retrograde), axial tilt (degrees), whether a clouds shell /
night-lights shell was attached at creation, and the fallback color. -/
structure PlanetData where
  name : String
  size : ℚ
  distance : ℚ
  orbitalPeriod : ℚ
  rotationPeriod : ℚ
  axialTilt : ℚ
  hasClouds : Bool
  hasNight : Bool
  color : ℕ
deriving DecidableEq, Repr, Inhabited

/-- The eight entries of `planetsData` (decimal literals as exact fractions). -/
def planetsData : List PlanetData :=
  [⟨"Mercury", 3, 50, 24/100, 586/10, 3/100, false, false, 0xAAAAAA⟩,
   ⟨"Venus", 48/10, 80, 62/100, -243, 1773/10, true, false, 0xFFAAAA⟩,
   ⟨"Earth", 5, 120, 1, 1, 235/10, true, true, 0x0000FF⟩,
   ⟨"Mars", 35/10, 180, 188/100, 103/100, 252/10, false, false, 0xFF0000⟩,
   ⟨"Jupiter", 25, 300, 1186/100, 41/100, 31/10, false, false, 0xFFA500⟩,
   ⟨"Saturn", 20, 450, 2946/100, 44/100, 267/10, false, false, 0xFFD700⟩,
   ⟨"Uranus", 18, 600, 8401/100, -72/100, 978/10, false, false, 0xADD8E6⟩,
   ⟨"Neptune", 17, 750, 16479/100, 67/100, 283/10, false, false, 0x00008B⟩]

/-- Animation state of one entry of `planets` (lines 495–585): the rotations of
the orbit group, the planet mesh (x = tilt, y = spin), the optional clouds and
night-lights shells, and — for Earth, whose creation attaches a moon orbit
group under the planet mesh (lines 560–578) — the moon orbit group's and moon
mesh's y-rotations.  All rotations start at three.js's default `0`. -/
structure Planet where
  data : PlanetData
  orbitRotY : ℚ
  meshRotX : AngVal
  meshRotY : ℚ
  cloudsRotX : AngVal
  cloudsRotY : ℚ
  nightRotX : AngVal
  moonOrbitRotY : ℚ
  moonMeshRotY : ℚ
deriving DecidableEq, Repr, Inhabited

/-- A freshly created planet entry: all rotations 0. -/
def mkPlanet (d : PlanetData) : Planet := ⟨d, 0, ⟨0, 0⟩, 0, ⟨0, 0⟩, 0, ⟨0, 0⟩, 0, 0⟩

/-- Mercury's entry of `planets` as created. -/
def mercuryInit : Planet := mkPlanet ⟨"Mercury", 3, 50, 24/100, 586/10, 3/100, false, false, 0xAAAAAA⟩

/-- Earth's entry of `planets` as created (clouds, night lights and moon). -/
def earthInit : Planet := mkPlanet ⟨"Earth", 5, 120, 1, 1, 235/10, true, true, 0x0000FF⟩

/-- Line 656, `orbitGroup.rotation.y += (0.005 / data.orbitalPeriod)`: the
planet's orbit around the Sun — the orbit-group rotation is incremented. -/
def applyOrbitStep (p : Planet) : Planet :=
  { p with orbitRotY := p.orbitRotY + (1/200) / p.data.orbitalPeriod }

/-- Line 659, `mesh.rotation.y += (0.05 / data.rotationPeriod)`: the planet's
self-rotation. -/
def applySelfSpin (p : Planet) : Planet :=
  { p with meshRotY := p.meshRotY + (1/20) / p.data.rotationPeriod }

/-- One `animate` tick for one entry of `planets` (lines 647–672), in source
order: the axial tilt is *assigned* to the mesh's (and shells') x-rotation
(`mesh.rotation.x = data.axialTilt * Math.PI / 180`, lines 650–653), then the
orbit-group increment (line 656), the self-spin increment (line 659), the
clouds-shell y-increment (line 662), and — `if (data.name === "Earth" &&
data.moon)`, where `data.moon` was attached exactly when the name is `"Earth"`
(line 560) — the moon orbit-group and moon-mesh increments (lines 665–671). -/
def updatePlanet (p : Planet) : Planet :=
  let tilt : AngVal := ⟨0, p.data.axialTilt / 180⟩
  let p1 : Planet :=
    { p with
      meshRotX := tilt,
      cloudsRotX := if p.data.hasClouds then tilt else p.cloudsRotX,
      nightRotX := if p.data.hasNight then tilt else p.nightRotX }
  let p2 : Planet := applyOrbitStep p1
  let p3 : Planet := applySelfSpin p2
  let cloudsDelta : ℚ := ((1/20) / p.data.rotationPeriod) * (9/10)
  let p4 : Planet :=
    { p3 with
      cloudsRotY := if p.data.hasClouds then p3.cloudsRotY + cloudsDelta else p3.cloudsRotY }
  if p.data.name = "Earth" then
    { p4 with
      moonOrbitRotY := p4.moonOrbitRotY + 1/50,
      moonMeshRotY := p4.moonMeshRotY + 1/200 }
  else p4

/-- One scene-graph node's local transform data: x-rotation, y-rotation and
x-position offset (the only transform components this scene sets). -/
structure NodeXf where
  rotX : AngVal
  rotY : ℚ
  posX : ℚ
deriving DecidableEq, Repr

/-- The scene-graph transform chain from the scene root down to the moon mesh
(`scene → planetOrbit → planet mesh → moonOrbit → moon mesh`, lines 495–578):
the moon's world position is obtained by composing exactly these parent-child
transforms, never by combining ancestor angles manually. -/
def moonChain (p : Planet) : List NodeXf :=
  [⟨⟨0, 0⟩, p.orbitRotY, 0⟩,
   ⟨p.meshRotX, p.meshRotY, p.data.distance⟩,
   ⟨⟨0, 0⟩, p.moonOrbitRotY, 0⟩,
   ⟨⟨0, 0⟩, p.moonMeshRotY, 15⟩]

/-- Earth's entry with the parent orbit group rotated (an example state for
instantiating the independence statements). -/
def earthShifted : Planet := { earthInit with orbitRotY := 1 }

end Solar2

namespace RoomScene

/-- The camera/renderer state the resize listener of `src/script.js`
(lines 409–414) writes: camera aspect, renderer surface size, composer size. -/
structure ViewState where
  aspect : ℚ
  surfW : ℚ
  surfH : ℚ
  composerW : ℚ
  composerH : ℚ
deriving DecidableEq, Repr, Inhabited

/-- The resize listener (`src/script.js` lines 409–414; identically
`src/unnamed/part_000` lines 263–267 and 682–686 without the composer):
`camera.aspect = W / H; camera.updateProjectionMatrix();
renderer.setSize(W, H); composer.setSize(W, H)` — synchronous, overwriting
every modelled field. -/
def onResize (W H : ℚ) (_s : ViewState) : ViewState := ⟨W / H, W, H, W, H⟩

/-- The frame a render call produces: it reads the camera aspect and the
render-surface size current at that moment. -/
structure Frame where
  aspect : ℚ
  width : ℚ
  height : ℚ
deriving DecidableEq, Repr

/-- What `composer.render()` inside `animate` produces from the current state;
the animate loop itself never writes aspect or sizes. -/
def renderFrame (s : ViewState) : Frame := ⟨s.aspect, s.surfW, s.surfH⟩

/-- Events of the render loop: a resize notification (handled synchronously by
`onResize` before control returns to the event loop) or a frame tick rendering
with the state current at the tick. -/
inductive LoopEv where
  | resize (W H : ℚ)
  | tick
deriving DecidableEq, Repr

/-- Event-loop step: a resize event runs the listener and produces no frame; a
tick leaves the view state alone and produces the frame rendered from it. -/
def loopStep (s : ViewState) : LoopEv → ViewState × Option Frame
  | .resize W H => (onResize W H s, none)
  | .tick => (s, some (renderFrame s))

/-- The nine entries of `codeLines` (`src/script.js` line 186). -/
def codeLines : List String :=
  ["def fib(n):", "    a, b = 0, 1", "    while a < n:", "        print(a)",
   "        a, b = b, a+b", "", "fib(10)", "", "[OK] Script finished."]

/-- One step of the code-scroll timer (`src/script.js` line 198):
`codeScroll = (codeScroll + 1) % codeLines.length`; `codeScroll` starts at 0
(line 187). -/
def codeScrollStep (n : ℕ) : ℕ := (n + 1) % codeLines.length

/-- The line index the repaint reads for row `i` (`src/script.js` line 194):
`(codeScroll + i) % codeLines.length`. -/
def codeLineIdx (scroll i : ℕ) : ℕ := (scroll + i) % codeLines.length

/-- The operations the `src/script.js` frame machinery can perform. -/
inductive FrameOp where
  | repaintMatrix
  | controlsUpdate
  | poseUpdate
  | renderOp
  | repaintCode
deriving DecidableEq, Repr

/-- Body of the matrix-rain requestAnimationFrame callback (lines 154–170):
repaint the matrix canvas, mark the texture dirty, re-register. -/
def matrixRainCallback : List FrameOp := [.repaintMatrix]

/-- Body of the main `animate` requestAnimationFrame callback (lines 392–408):
re-register, `controls.update()`, the head/arm pose-angle assignments, then
`composer.render()`. -/
def animateCallback : List FrameOp := [.controlsUpdate, .poseUpdate, .renderOp]

/-- Body of the code-scroll task (lines 188–203): it repaints its canvas and
re-schedules itself with `setTimeout(…, 800)` — it runs on its own timer,
outside the display-refresh scheduler. -/
def codeTimerTask : List FrameOp := [.repaintCode]

/-- requestAnimationFrame callbacks run once per display-refresh tick, in
registration order (HTML event-loop semantics).  `animateMatrixRain()` is
invoked at line 171 and registers its callback there, before `animate()`
(invoked at line 416) registers its own; on every subsequent tick each
callback re-registers itself during its own run, preserving this order.  So
every scheduler tick executes the two callback bodies in this order. -/
def rafTickQueue : List (List FrameOp) := [matrixRainCallback, animateCallback]

/-- The operations one scheduler tick performs, in execution order. -/
def tickTrace : List FrameOp := rafTickQueue.flatten

/-- The per-tick operation order asserted by the claim: camera easing, angle
update, dynamic-canvas repaint, final render. -/
def claimedTrace : List FrameOp := [.controlsUpdate, .poseUpdate, .repaintMatrix, .renderOp]

end RoomScene

namespace CamCtl

/-- Modelled from the spec: the camera controller is three.js's
`OrbitControls`, an addon whose source is not part of this repository — the
repository only configures it (`src/unnamed/part_000` lines 24–31 and
293–302: `enableDamping`, `dampingFactor = 0.05`, `minDistance = 15`,
`maxDistance = 2000`, followed by `controls.update()`).  Spec §4.3: the
controller maintains a distance from a fixed target, applies exponential
damping toward the latest user-commanded values every frame, and clamps the
distance to the configured `[min, max]` range. -/
structure Ctl where
  minDistance : ℚ
  maxDistance : ℚ
  radius : ℚ
  commanded : ℚ
deriving DecidableEq, Repr, Inhabited

/-- A controller event: a zoom input (pointer/scroll) recording the latest
user-commanded distance, or the per-frame `controls.update()` step. -/
inductive CtlEv where
  | zoomTo (d : ℚ)
  | update
deriving DecidableEq, Repr

/-- Modelled from the spec: zoom inputs only record the commanded distance;
`update` eases the radius toward it (damping factor 0.05 = 1/20) and clamps
the result to `[minDistance, maxDistance]`. -/
def ctlStep (c : Ctl) : CtlEv → Ctl
  | .zoomTo d => { c with commanded := d }
  | .update =>
      { c with
        radius := max c.minDistance (min c.maxDistance
          (c.radius + (1/20) * (c.commanded - c.radius))) }

/-- The solar-system scene's controller right after setup: bounds 15/2000, an
arbitrary initial camera distance `r0` (the scene sets the camera to
(0, 200, 400)), followed by the setup call `controls.update()` (line 31 /
line 302). -/
def solarCtl (r0 : ℚ) : Ctl := ctlStep ⟨15, 2000, r0, r0⟩ .update

end CamCtl

namespace TexLoad

/-- Whether the network fetch of a texture URL succeeds or fails. -/
inductive LoadOutcome where
  | success
  | failure
deriving DecidableEq, Repr

/-- A texture value: either the `THREE.Texture` created by the loader for a
URL (`loaded = false` meaning the load failed and it holds no image data), or
a 1×1 canvas texture filled with a solid color. -/
inductive Texture where
  | remote (url : String) (loaded : Bool)
  | canvasFill (color : ℕ)
deriving DecidableEq, Repr

/-- Model of `THREE.TextureLoader.load` (three.js API): it creates a `Texture`
bound to the URL and returns it immediately; on failure the `onError` callback
is invoked, but the API discards the callback's return value — the callback
has no way to replace the already-returned texture. -/
def textureLoaderLoad (url : String) (outcome : LoadOutcome)
    (onError : Unit → Texture) : Texture :=
  match outcome with
  | .success => .remote url true
  | .failure =>
      let _discarded : Texture := onError ()
      .remote url false

/-- The function `loadTexture` (`src/unnamed/part_000` lines 50–65 and 327–343): calls
`textureLoader.load(url, …, onError)` where the error callback builds a 1×1
canvas filled with `fallbackColor` (default argument `0x888888` at both call
sites) and returns `new THREE.CanvasTexture(canvas)` from the callback. -/
def loadTexture (url : String) (outcome : LoadOutcome) (fallbackColor : ℕ) : Texture :=
  textureLoaderLoad url outcome (fun _ => .canvasFill fallbackColor)

/-- One of the texture URLs the scene loads (line 78). -/
def mercuryUrl : String := "https://www.solarsystemscope.com/textures/download/8k_mercury.jpg"

end TexLoad

/-! ## Theorems -/

namespace Solar1

theorem updatePG_params (pg : PlanetGroup) : (updatePG pg).params = pg.params := rfl

theorem updatePG_angle (pg : PlanetGroup) :
    (updatePG pg).angle = pg.angle + ⟨pg.params.orbitSpeed, 0⟩ := rfl

theorem iterate_updatePG_params (k : ℕ) (pg : PlanetGroup) :
    (updatePG^[k] pg).params = pg.params := by
  induction k with
  | zero => rfl
  | succ n ih => rw [Function.iterate_succ_apply', updatePG_params, ih]

theorem iterate_updatePG_angle (pg : PlanetGroup) (k : ℕ) :
    (updatePG^[k] pg).angle =
      ⟨pg.angle.q + (k : ℚ) * pg.params.orbitSpeed, pg.angle.c⟩ := by
  induction k with
  | zero => simp
  | succ n ih =>
    rw [Function.iterate_succ_apply', updatePG_angle, iterate_updatePG_params, ih]
    show AngVal.mk _ _ = _
    push_cast
    norm_num
    ring

theorem planetGroups_getD_one : planetGroups.getD 1 default = venusInit := by
  norm_num [planetGroups, planetParams, venusInit, List.enum, List.enumFrom]

theorem updatePG_one_venus : (updatePG^[1] venusInit).angle = ⟨7/1000, 1/4⟩ := by
  norm_num [updatePG, applyGroupRotAssign, venusInit,
    show ∀ a b : AngVal, a + b = ⟨a.q + b.q, a.c + b.c⟩ from fun _ _ => rfl]

end Solar1

/-- Claim C1, counterexample. The planet state pushed at index 1 (Venus) starts at
the staggered angle `π/4`, so after `k = 1` tick its accumulated orbital angle
denotes the real value `7/1000 + π/4`, which is *not* congruent to
`k * ω_orbit = 1 * 7/1000` modulo `2π`: the claim fails for every body whose
staggered starting angle is not a multiple of `2π`. -/
theorem c1_counterexample :
    Solar1.planetGroups.getD 1 default = Solar1.venusInit ∧
    (Solar1.updatePG^[1] Solar1.venusInit).angle = ⟨7/1000, 1/4⟩ ∧
    (AngVal.mk (7/1000) (1/4)).denotes ((7/1000 : ℝ) + Real.pi / 4) ∧
    ¬ congMod2Pi ((7/1000 : ℝ) + Real.pi / 4)
        (((1 : ℕ) : ℝ) * ((Solar1.venusInit.params.orbitSpeed : ℚ) : ℝ)) := by
  refine ⟨Solar1.planetGroups_getD_one, Solar1.updatePG_one_venus, ?_, ?_⟩
  · show (7/1000 : ℝ) + Real.pi / 4 =
      (((7/1000 : ℚ) : ℝ)) + (((1/4 : ℚ) : ℝ)) * Real.pi
    push_cast
    ring
  · rintro ⟨n, hn⟩
    have hsp : Solar1.venusInit.params.orbitSpeed = (7/1000 : ℚ) := rfl
    rw [hsp] at hn
    push_cast at hn
    have hpi : Real.pi * (1 - 8 * (n : ℝ)) = 0 := by ring_nf; ring_nf at hn; linarith
    rcases mul_eq_zero.mp hpi with h | h
    · exact Real.pi_ne_zero h
    · have h8 : (8 * n : ℤ) = 1 := by
        have h8' : (8 : ℝ) * (n : ℝ) = 1 := by linarith
        exact_mod_cast h8'
      omega

/-- Claim C1, amended. Each tick adds exactly `ω_orbit` to the accumulated
orbital angle, with no time scaling and no dependence on frame duration, so
after `k` ticks the angle equals the body's *initial (staggered) angle*
`idx * π/4` plus `k * ω_orbit`; it is congruent to `k * ω_orbit` modulo `2π`
only for bodies whose staggered starting angle is a multiple of `2π`.
(In the `q + c·π` representation: the rational part grows by `k * ω_orbit`,
the `π`-coefficient of the initial angle is untouched.) -/
theorem c1_amended (pg : Solar1.PlanetGroup) (k : ℕ) :
    (Solar1.updatePG^[k] pg).angle =
      ⟨pg.angle.q + (k : ℚ) * pg.params.orbitSpeed, pg.angle.c⟩ :=
  Solar1.iterate_updatePG_angle pg k

namespace Solar2

theorem updatePlanet_data (p : Planet) : (updatePlanet p).data = p.data := by
  simp only [updatePlanet, applyOrbitStep, applySelfSpin]
  split <;> rfl

theorem iterate_updatePlanet_data (k : ℕ) (p : Planet) :
    (updatePlanet^[k] p).data = p.data := by
  induction k with
  | zero => rfl
  | succ n ih => rw [Function.iterate_succ_apply', updatePlanet_data, ih]

theorem updatePlanet_meshRotX (p : Planet) :
    (updatePlanet p).meshRotX = ⟨0, p.data.axialTilt / 180⟩ := by
  simp only [updatePlanet, applyOrbitStep, applySelfSpin]
  split <;> rfl

theorem updatePlanet_moonOrbitRotY_earth (p : Planet) (hE : p.data.name = "Earth") :
    (updatePlanet p).moonOrbitRotY = p.moonOrbitRotY + 1/50 := by
  simp only [updatePlanet, applyOrbitStep, applySelfSpin]
  rw [if_pos hE]

end Solar2

/-- Claim C2, counterexample. In the detailed solar-system variant, the orbit
group's rotation is *incremented*, not assigned: starting from Mercury's
freshly created entry, performing the orbit-group update of line 656 twice
within one frame yields a different rotation than performing it once, so the
group-level update is not idempotent, and the claim's "set, not incremented …
in every animation-loop variant" fails. -/
theorem c2_counterexample :
    (Solar2.applyOrbitStep (Solar2.applyOrbitStep Solar2.mercuryInit)).orbitRotY ≠
      (Solar2.applyOrbitStep Solar2.mercuryInit).orbitRotY := by
  norm_num [Solar2.applyOrbitStep, Solar2.mercuryInit, Solar2.mkPlanet]

/-- Claim C2, amended. In the *simple* variant the orbit group's rotation is
assigned (set, not incremented) to the owned body's accumulated orbital angle
on every tick — after the tick the rotation equals the accumulated angle, and
re-applying the assignment within the same frame changes nothing.  In the
*detailed* variant the orbit group's rotation is instead incremented by
`0.005 / orbitalPeriod` each tick (the rotation itself is the accumulator). -/
theorem c2_amended :
    (∀ pg : Solar1.PlanetGroup,
      (Solar1.updatePG pg).orbitGroupRotY = (Solar1.updatePG pg).angle ∧
      Solar1.applyGroupRotAssign (Solar1.updatePG pg) = Solar1.updatePG pg) ∧
    (∀ p : Solar2.Planet,
      (Solar2.applyOrbitStep p).orbitRotY = p.orbitRotY + (1/200) / p.data.orbitalPeriod) :=
  ⟨fun _ => ⟨rfl, rfl⟩, fun _ => rfl⟩

/-- Claim C3, code-bug evaluation. Evaluation of the texture loader at a failing URL: the
error callback builds the 1×1 fallback-color canvas texture and returns it,
but `TextureLoader.load` discards the callback's return value, so `loadTexture`
yields the original (empty) texture bound to the URL — never the fallback-color
placeholder the code's own comments and warning message promise ("Using
fallback color"). -/
theorem c3_fallback_discarded :
    TexLoad.loadTexture TexLoad.mercuryUrl TexLoad.LoadOutcome.failure 0x888888 =
      TexLoad.Texture.remote TexLoad.mercuryUrl false ∧
    (∀ c fb : ℕ, TexLoad.loadTexture TexLoad.mercuryUrl TexLoad.LoadOutcome.failure fb ≠
      TexLoad.Texture.canvasFill c) ∧
    (∀ url : String, ∀ fb : ℕ, TexLoad.loadTexture url TexLoad.LoadOutcome.success fb =
      TexLoad.Texture.remote url true) :=
  ⟨rfl, fun _ _ h => TexLoad.Texture.noConfusion h, fun _ _ => rfl⟩

/-- Claim C4. The moon's orbital angle accumulates independently: the parent's
orbit-group update (line 656) and self-spin update (line 659) leave the moon's
accumulated angle untouched and change only the head of the moon's scene-graph
transform chain (through which the moon's world position is composed); a full
tick increments the moon's angle by exactly `0.02 = 1/50`; and the moon angle
produced by a tick does not depend on the parent's rotation state (two states
agreeing on the data record and the moon angle, whatever their parent
rotations, tick to the same moon angle). -/
theorem c4_moon_independent (p q : Solar2.Planet) (hE : p.data.name = "Earth")
    (hd : q.data = p.data) (hm : q.moonOrbitRotY = p.moonOrbitRotY) :
    (Solar2.applyOrbitStep p).moonOrbitRotY = p.moonOrbitRotY ∧
    (Solar2.applySelfSpin p).moonOrbitRotY = p.moonOrbitRotY ∧
    Solar2.moonChain (Solar2.applyOrbitStep p) =
      ⟨⟨0, 0⟩, p.orbitRotY + (1/200) / p.data.orbitalPeriod, 0⟩ :: (Solar2.moonChain p).tail ∧
    (Solar2.updatePlanet p).moonOrbitRotY = p.moonOrbitRotY + 1/50 ∧
    (Solar2.updatePlanet q).moonOrbitRotY = (Solar2.updatePlanet p).moonOrbitRotY := by
  refine ⟨rfl, rfl, rfl, Solar2.updatePlanet_moonOrbitRotY_earth p hE, ?_⟩
  rw [Solar2.updatePlanet_moonOrbitRotY_earth p hE,
    Solar2.updatePlanet_moonOrbitRotY_earth q (by rw [hd]; exact hE), hm]

/-- Witness for C4 at Earth's created entry and the same entry with the parent
orbit group rotated. -/
theorem c4_moon_independent_witness :
    Solar2.earthInit.data.name = "Earth" ∧
    Solar2.earthShifted.data = Solar2.earthInit.data ∧
    Solar2.earthShifted.moonOrbitRotY = Solar2.earthInit.moonOrbitRotY ∧
    ((Solar2.applyOrbitStep Solar2.earthInit).moonOrbitRotY = Solar2.earthInit.moonOrbitRotY ∧
     (Solar2.applySelfSpin Solar2.earthInit).moonOrbitRotY = Solar2.earthInit.moonOrbitRotY ∧
     Solar2.moonChain (Solar2.applyOrbitStep Solar2.earthInit) =
       ⟨⟨0, 0⟩, Solar2.earthInit.orbitRotY + (1/200) / Solar2.earthInit.data.orbitalPeriod, 0⟩ ::
         (Solar2.moonChain Solar2.earthInit).tail ∧
     (Solar2.updatePlanet Solar2.earthInit).moonOrbitRotY =
       Solar2.earthInit.moonOrbitRotY + 1/50 ∧
     (Solar2.updatePlanet Solar2.earthShifted).moonOrbitRotY =
       (Solar2.updatePlanet Solar2.earthInit).moonOrbitRotY) :=
  ⟨rfl, rfl, rfl, c4_moon_independent Solar2.earthInit Solar2.earthShifted rfl rfl rfl⟩

/-- Claim C5. The resize listener sets the camera aspect to exactly `W / H` and
the render surface to exactly `(W, H)`, synchronously; the next frame produced
by the render loop is rendered with exactly these values. -/
theorem c5_resize_before_next_frame (s : RoomScene.ViewState) (W H : ℚ) (_hH : 0 < H) :
    (RoomScene.onResize W H s).aspect = W / H ∧
    (RoomScene.onResize W H s).surfW = W ∧
    (RoomScene.onResize W H s).surfH = H ∧
    (RoomScene.loopStep (RoomScene.loopStep s (RoomScene.LoopEv.resize W H)).1
        RoomScene.LoopEv.tick).2 = some ⟨W / H, W, H⟩ :=
  ⟨rfl, rfl, rfl, rfl⟩

/-- Witness for C5 at viewport 1920×1080. -/
theorem c5_resize_witness :
    (0 : ℚ) < 1080 ∧
    ((RoomScene.onResize 1920 1080 ⟨1, 1, 1, 1, 1⟩).aspect = 1920 / 1080 ∧
     (RoomScene.onResize 1920 1080 ⟨1, 1, 1, 1, 1⟩).surfW = 1920 ∧
     (RoomScene.onResize 1920 1080 ⟨1, 1, 1, 1, 1⟩).surfH = 1080 ∧
     (RoomScene.loopStep (RoomScene.loopStep ⟨1, 1, 1, 1, 1⟩
         (RoomScene.LoopEv.resize 1920 1080)).1 RoomScene.LoopEv.tick).2 =
       some ⟨1920 / 1080, 1920, 1080⟩) :=
  ⟨by decide, c5_resize_before_next_frame ⟨1, 1, 1, 1, 1⟩ 1920 1080 (by decide)⟩

namespace CamCtl

theorem ctlStep_minDistance (c : Ctl) (e : CtlEv) :
    (ctlStep c e).minDistance = c.minDistance := by
  cases e <;> rfl

theorem ctlStep_maxDistance (c : Ctl) (e : CtlEv) :
    (ctlStep c e).maxDistance = c.maxDistance := by
  cases e <;> rfl

theorem ctlStep_radius_bounds (c : Ctl) (e : CtlEv)
    (hb : c.minDistance ≤ c.maxDistance)
    (hmin : c.minDistance ≤ c.radius) (hmax : c.radius ≤ c.maxDistance) :
    c.minDistance ≤ (ctlStep c e).radius ∧ (ctlStep c e).radius ≤ c.maxDistance := by
  cases e with
  | zoomTo d => exact ⟨hmin, hmax⟩
  | update => exact ⟨le_max_left _ _, max_le hb (min_le_left _ _)⟩

theorem foldl_ctlStep_bounds (evs : List CtlEv) :
    ∀ c : Ctl, c.minDistance = 15 → c.maxDistance = 2000 →
      15 ≤ c.radius → c.radius ≤ 2000 →
      15 ≤ (evs.foldl ctlStep c).radius ∧ (evs.foldl ctlStep c).radius ≤ 2000 := by
  induction evs with
  | nil => exact fun c _ _ h3 h4 => ⟨h3, h4⟩
  | cons e rest ih =>
    intro c h1 h2 h3 h4
    have hb : c.minDistance ≤ c.maxDistance := by rw [h1, h2]; norm_num
    have hr := ctlStep_radius_bounds c e hb (by rw [h1]; exact h3) (by rw [h2]; exact h4)
    exact ih (ctlStep c e) ((ctlStep_minDistance c e).trans h1)
      ((ctlStep_maxDistance c e).trans h2)
      (by rw [← h1]; exact hr.1) (by rw [← h2]; exact hr.2)

theorem solarCtl_radius_bounds (r0 : ℚ) :
    15 ≤ (solarCtl r0).radius ∧ (solarCtl r0).radius ≤ 2000 :=
  ⟨le_max_left _ _, max_le (by norm_num) (min_le_left _ _)⟩

end CamCtl

/-- Claim C6. After the setup `controls.update()` and any sequence of zoom inputs
and per-frame update steps, the camera-to-target distance of the solar-system
scene's controller stays inside the configured `[15, 2000]` bound, for any
initial camera distance `r0`. -/
theorem c6_distance_bounded (r0 : ℚ) (evs : List CamCtl.CtlEv) :
    15 ≤ (evs.foldl CamCtl.ctlStep (CamCtl.solarCtl r0)).radius ∧
    (evs.foldl CamCtl.ctlStep (CamCtl.solarCtl r0)).radius ≤ 2000 :=
  CamCtl.foldl_ctlStep_bounds evs (CamCtl.solarCtl r0) rfl rfl
    (CamCtl.solarCtl_radius_bounds r0).1 (CamCtl.solarCtl_radius_bounds r0).2

/-- Claim C7, counterexample. Within one scheduler tick, the matrix-rain repaint
(whose requestAnimationFrame callback was registered first, at line 171) runs
*before* the main loop's `controls.update()`, so the claimed per-tick order
"camera easing, angle update, repaint, render" does not hold; moreover the
code-scroll repaint is not part of the scheduler tick at all (it runs on its
own 800 ms timeout chain). -/
theorem c7_counterexample :
    RoomScene.tickTrace ≠ RoomScene.claimedTrace ∧
    RoomScene.tickTrace.indexOf RoomScene.FrameOp.repaintMatrix <
      RoomScene.tickTrace.indexOf RoomScene.FrameOp.controlsUpdate ∧
    RoomScene.FrameOp.repaintCode ∉ RoomScene.tickTrace := by
  decide

/-- Claim C7, amended. Every scheduler tick performs the matrix-rain repaint
first (its callback is registered before the main loop's), then the main
`animate` callback's camera easing, pose-angle update and final render, in
that order; the code-scroll repaint runs on its own independent 800 ms timer
task, outside the display-refresh tick. -/
theorem c7_amended :
    RoomScene.tickTrace =
      [RoomScene.FrameOp.repaintMatrix, RoomScene.FrameOp.controlsUpdate,
       RoomScene.FrameOp.poseUpdate, RoomScene.FrameOp.renderOp] ∧
    RoomScene.FrameOp.repaintCode ∉ RoomScene.tickTrace ∧
    RoomScene.codeTimerTask = [RoomScene.FrameOp.repaintCode] := by
  decide

namespace Solar1

theorem planetParams_pos :
    ∀ p ∈ planetParams, 0 < p.size ∧ 0 < p.distance ∧ 0 < p.orbitSpeed := by
  intro p hp
  simp only [planetParams, List.mem_cons, List.not_mem_nil, or_false] at hp
  rcases hp with h | h | h | h | h | h | h | h | h <;> rw [h] <;> refine ⟨?_, ?_, ?_⟩ <;> norm_num

end Solar1

/-- Claim C8. For every planet entry, the visual radius (`size`) and orbital
radius (`distance`) are positive at creation; the per-tick update never
changes the parameters; and the accumulated orbital angle strictly increases
with every tick (its rational part grows by the positive `orbitSpeed`, its
π-part stays fixed), hence the angle is monotonically increasing. -/
theorem c8_invariants (pg : Solar1.PlanetGroup) (k : ℕ)
    (h : pg.params ∈ Solar1.planetParams) :
    (0 < pg.params.size ∧ 0 < pg.params.distance) ∧
    (Solar1.updatePG^[k] pg).params = pg.params ∧
    ((Solar1.updatePG^[k] pg).angle).q < ((Solar1.updatePG^[k+1] pg).angle).q ∧
    ((Solar1.updatePG^[k+1] pg).angle).c = ((Solar1.updatePG^[k] pg).angle).c := by
  obtain ⟨hs, hd, ho⟩ := Solar1.planetParams_pos pg.params h
  refine ⟨⟨hs, hd⟩, Solar1.iterate_updatePG_params k pg, ?_, ?_⟩
  · rw [Solar1.iterate_updatePG_angle pg k, Solar1.iterate_updatePG_angle pg (k+1)]
    show pg.angle.q + (k : ℚ) * pg.params.orbitSpeed <
      pg.angle.q + ((k + 1 : ℕ) : ℚ) * pg.params.orbitSpeed
    push_cast
    nlinarith [ho]
  · rw [Solar1.iterate_updatePG_angle pg k, Solar1.iterate_updatePG_angle pg (k+1)]

/-- Witness for C8 at Mercury's created entry, `k = 0`. -/
theorem c8_invariants_witness :
    Solar1.mercuryInit.params ∈ Solar1.planetParams ∧
    ((0 < Solar1.mercuryInit.params.size ∧ 0 < Solar1.mercuryInit.params.distance) ∧
     (Solar1.updatePG^[0] Solar1.mercuryInit).params = Solar1.mercuryInit.params ∧
     ((Solar1.updatePG^[0] Solar1.mercuryInit).angle).q <
       ((Solar1.updatePG^[0+1] Solar1.mercuryInit).angle).q ∧
     ((Solar1.updatePG^[0+1] Solar1.mercuryInit).angle).c =
       ((Solar1.updatePG^[0] Solar1.mercuryInit).angle).c) :=
  ⟨by simp [Solar1.mercuryInit, Solar1.planetParams],
   c8_invariants Solar1.mercuryInit 0 (by simp [Solar1.mercuryInit, Solar1.planetParams])⟩

/-- Claim C9. The scroll index stays in `[0, codeLines.length)` after every
update step of the code-scroll timer, and every row's line index
`(codeScroll + i) % codeLines.length` is in bounds, so the `codeLines[idx]`
lookup never goes out of bounds. -/
theorem c9_code_scroll_in_bounds (k i : ℕ) (_hi : i < 9) :
    RoomScene.codeScrollStep^[k] 0 < RoomScene.codeLines.length ∧
    RoomScene.codeLineIdx (RoomScene.codeScrollStep^[k] 0) i <
      RoomScene.codeLines.length := by
  refine ⟨?_, Nat.mod_lt _ (by decide)⟩
  cases k with
  | zero => decide
  | succ n =>
    rw [Function.iterate_succ_apply']
    exact Nat.mod_lt _ (by decide)

/-- Witness for C9 at `k = 5`, row `i = 3`. -/
theorem c9_code_scroll_witness :
    3 < 9 ∧
    (RoomScene.codeScrollStep^[5] 0 < RoomScene.codeLines.length ∧
     RoomScene.codeLineIdx (RoomScene.codeScrollStep^[5] 0) 3 <
       RoomScene.codeLines.length) :=
  ⟨by decide, c9_code_scroll_in_bounds 5 3 (by decide)⟩

/-- Claim C10. In the detailed variant's tick, the planet mesh's x-rotation is
assigned the constant `axialTilt * π / 180` (in the `q + c·π` representation:
`⟨0, axialTilt/180⟩`) on every tick, so after any `k ≥ 1` ticks it equals that
constant, re-applying the tick leaves it unchanged (idempotent, independent of
tick count), and the assigned value denotes the real `axialTilt * π / 180`. -/
theorem c10_axial_tilt_constant (p : Solar2.Planet) (k : ℕ) (hk : 1 ≤ k) :
    (Solar2.updatePlanet^[k] p).meshRotX = ⟨0, p.data.axialTilt / 180⟩ ∧
    (Solar2.updatePlanet (Solar2.updatePlanet^[k] p)).meshRotX =
      (Solar2.updatePlanet^[k] p).meshRotX ∧
    (AngVal.mk 0 (p.data.axialTilt / 180)).denotes
      ((p.data.axialTilt : ℝ) * Real.pi / 180) := by
  obtain ⟨n, rfl⟩ : ∃ n, k = n + 1 := ⟨k - 1, by omega⟩
  have hmesh : (Solar2.updatePlanet^[n + 1] p).meshRotX = ⟨0, p.data.axialTilt / 180⟩ := by
    rw [Function.iterate_succ_apply', Solar2.updatePlanet_meshRotX,
      Solar2.iterate_updatePlanet_data]
  refine ⟨hmesh, ?_, ?_⟩
  · rw [Solar2.updatePlanet_meshRotX, Solar2.iterate_updatePlanet_data, hmesh]
  · show (p.data.axialTilt : ℝ) * Real.pi / 180 =
      ((0 : ℚ) : ℝ) + ((p.data.axialTilt / 180 : ℚ) : ℝ) * Real.pi
    push_cast
    ring

/-- Witness for C10 at Mercury's created entry, `k = 1`. -/
theorem c10_axial_tilt_witness :
    1 ≤ 1 ∧
    ((Solar2.updatePlanet^[1] Solar2.mercuryInit).meshRotX =
       ⟨0, Solar2.mercuryInit.data.axialTilt / 180⟩ ∧
     (Solar2.updatePlanet (Solar2.updatePlanet^[1] Solar2.mercuryInit)).meshRotX =
       (Solar2.updatePlanet^[1] Solar2.mercuryInit).meshRotX ∧
     (AngVal.mk 0 (Solar2.mercuryInit.data.axialTilt / 180)).denotes
       ((Solar2.mercuryInit.data.axialTilt : ℝ) * Real.pi / 180)) :=
  ⟨by decide, c10_axial_tilt_constant Solar2.mercuryInit 1 (by decide)⟩
